import Mathlib

/-!
Verification of the intent-routing and conversation core of the AI-Desktop-Agent
repository.  The Python sources `src/main.py` (SpecterAgent.process_command and
its keyword fallback) and `src/modules/conversation.py` (ConversationEngine) are
shallowly embedded below: module handlers and the remote LLM service are
collaborators, modelled as explicit function parameters returning
`Except String String` (an exception is an `.error` carrying the exception
message); Python strings are Lean `String`; persisted JSON stores are modelled
at the level of parsed JSON trees.
-/

set_option maxRecDepth 10000

deriving instance DecidableEq for Except

namespace SpecterAgent

/-! ## Python string primitives used by the source -/

/-- Python whitespace class used by `str.strip` and the regex class `\s`. -/
def pyIsSpace (c : Char) : Bool :=
  c == ' ' || c == '\t' || c == '\n' || c == '\r' || c == '\x0b' || c == '\x0c'

/-- `str.strip()` on a character list: drop whitespace from both ends. -/
def pyStripChars (l : List Char) : List Char :=
  ((l.dropWhile pyIsSpace).reverse.dropWhile pyIsSpace).reverse

/-- Python `s.strip()`. -/
def pyStrip (s : String) : String :=
  String.mk (pyStripChars s.data)

/-- Python `s.lower()` (the source only feeds ASCII command text). -/
def pyLower (s : String) : String :=
  String.mk (s.data.map Char.toLower)

/-- Does `needle` occur at the head of `hay`? -/
def headIs : List Char → List Char → Bool
  | [], _ => true
  | _ :: _, [] => false
  | a :: as, b :: bs => a == b && headIs as bs

/-- Does `needle` occur anywhere in `hay` (Python `needle in hay`)? -/
def occursCL (needle : List Char) : List Char → Bool
  | [] => needle.isEmpty
  | c :: rest => headIs needle (c :: rest) || occursCL needle rest

/-- Python `needle in hay` on strings. -/
def strIn (needle hay : String) : Bool :=
  occursCL needle.data hay.data

/-- Python `s.startswith(pre)`. -/
def pyStartsWith (s pre : String) : Bool :=
  headIs pre.data s.data

/-! ## Keyword fallback routing (main.py lines 403-458)

The fallback branch of `SpecterAgent.process_command` is a chain of
`any(word in command_clean for word in [...])` tests, in source order. -/

/-- The nine routing categories of the fallback chain, in source order. -/
inductive Cap where
  | music | email | files | news | weather | calendar | launcher | system | conversation
deriving DecidableEq

def musicWords : List String := ["play", "music", "song"]
def emailWords : List String := ["email", "send mail", "send email"]
def fileWords : List String := ["find", "file", "folder", "organize"]
def newsWords : List String := ["news", "headlines"]
def weatherWords : List String := ["weather", "forecast"]
def calendarWords : List String := ["calendar", "schedule", "meeting"]
def launchWords : List String := ["open", "launch", "start"]
def systemWords : List String := ["system", "performance"]

/-- `any(word in command_clean for word in ws)`. -/
def anyWordIn (ws : List String) (clean : String) : Bool :=
  ws.any (fun w => strIn w clean)

/-- The category selected by the keyword fallback chain of
`process_command`, translated test for test from the source `elif` chain. -/
def keywordCategory (clean : String) : Cap :=
  if anyWordIn musicWords clean then .music
  else if anyWordIn emailWords clean then .email
  else if anyWordIn fileWords clean then .files
  else if anyWordIn newsWords clean then .news
  else if anyWordIn weatherWords clean then .weather
  else if anyWordIn calendarWords clean then .calendar
  else if anyWordIn launchWords clean then .launcher
  else if anyWordIn systemWords clean then .system
  else .conversation

/-- Modelled from the spec's words: the fixed priority list of keyword rules
(music, email, files, news, weather, calendar, app-launch, system), with the
conversation default as the catch-all.  Used only to compare the source's
`elif` chain against the spec's ordered-table description. -/
def priorityTable : List (List String × Cap) :=
  [(musicWords, .music), (emailWords, .email), (fileWords, .files),
   (newsWords, .news), (weatherWords, .weather), (calendarWords, .calendar),
   (launchWords, .launcher), (systemWords, .system)]

/-- Modelled from the spec's words: first matching rule of an ordered rule
table wins; no match falls to the conversation default. -/
def firstMatch : List (List String × Cap) → String → Cap
  | [], _ => .conversation
  | r :: rest, clean => if anyWordIn r.1 clean then r.2 else firstMatch rest clean

/-- Modelled from the spec's words: evaluate the priority table in order. -/
def priorityFirstMatch (clean : String) : Cap :=
  firstMatch priorityTable clean

/-! ## Conversation engine data model (conversation.py) -/

/-- One conversation turn, as built by `add_to_history` (a dict with keys
role, content, timestamp). -/
structure Turn where
  role : String
  content : String
  timestamp : String
deriving DecidableEq

/-- One message of an outbound chat request (role and content only;
`groq_chat` strips timestamps before sending). -/
structure ChatMsg where
  role : String
  content : String
deriving DecidableEq

/-- The mutable state of `ConversationEngine`: whether `openai_client` is
configured, the conversation history, the current mode and the user name. -/
structure ConvState where
  client : Bool
  history : List Turn
  mode : String
  userName : String
deriving DecidableEq

/-- The remote Groq service, a collaborator: one oracle per call site.
`intentReply` and `extractReply` are functions of the user message embedded
into the fixed prompt; `chatReply` is a function of the outbound message
list.  `.error` is a transport error or timeout raised by the call. -/
structure Remote where
  intentReply : String → Except String String
  chatReply : List ChatMsg → Except String String
  extractReply : String → Except String String

/-- Result of email-detail extraction: a dict with keys recipient, subject,
message, each a string or None. -/
structure EmailData where
  recipient : Option String
  subject : Option String
  message : Option String
deriving DecidableEq

/-- What `detect_intent_and_respond` hands back to the router: either a
function-call dict (with optional email params) or a plain chat string. -/
inductive IntentResult where
  | fcall (fname : String) (params : Option EmailData)
  | reply (text : String)
deriving DecidableEq

/-! ## Persona prompts and fallback tables (conversation.py lines 238-288) -/

def friendPrompt (u : String) : String :=
  "You are Specter, a friendly AI assistant and companion to " ++ u ++ ". " ++
  "Be warm, conversational, and helpful. You can help with files, emails, music, and more. " ++
  "Show personality and engage naturally. Remember previous conversations and build rapport. " ++
  "Keep responses concise but engaging."

def therapistPrompt (u : String) : String :=
  "You are Specter, a supportive AI counselor for " ++ u ++ ". " ++
  "Listen actively, provide emotional support, and offer gentle guidance. " ++
  "Be empathetic, non-judgmental, and encouraging. Ask thoughtful questions. " ++
  "Keep responses supportive and not too long."

def workmatePrompt (u : String) : String :=
  "You are Specter, a professional AI colleague working with " ++ u ++ ". " ++
  "Be efficient, knowledgeable, and focused on productivity. You can help with file management, " ++
  "script creation, email automation, and system monitoring. " ++
  "Provide clear, actionable advice and help solve problems systematically. " ++
  "Be direct and professional."

/-- `get_system_prompt`: `prompts.get(self.current_mode, prompts["friend"])`
followed by the current-time suffix.  `now` stands for the formatted
`datetime.now()` value. -/
def get_system_prompt (mode u now : String) : String :=
  let base :=
    if mode = "friend" then friendPrompt u
    else if mode = "therapist" then therapistPrompt u
    else if mode = "workmate" then workmatePrompt u
    else friendPrompt u
  base ++ "\n\nCurrent time: " ++ now

/-- The static fallback table of `fallback_response`, in dict insertion
order; the first key contained in the lower-cased message wins. -/
def fallbackTable (u : String) : List (String × String) :=
  [("hello", "Hello " ++ u ++ "! I can help with emails, files, music, and more. How can I assist you?"),
   ("hi", "Hi " ++ u ++ "! What would you like to do today? I can manage files, send emails, or just chat!"),
   ("how are you", "I'm doing well, thank you for asking! Ready to help with any file operations, emails, or other tasks. How are you?"),
   ("what can you do", "I can help with file management (move, copy, create scripts), email automation, music, news, weather, and much more!"),
   ("help", "I can assist with file operations, email management, music playback, news updates, and general conversation!"),
   ("files", "I can help you find, organize, move, copy, create, or delete files safely. What file operation do you need?"),
   ("email", "I can help you compose, send, or manage email drafts. Would you like to send an email?"),
   ("move files", "I can help you move files interactively with password protection. Just say 'move files' to get started!"),
   ("copy files", "I can help you copy files safely to different locations. Say 'copy files' to begin!"),
   ("create script", "I can generate script templates in Python, JavaScript, HTML, Bash, or CSS. Say 'create script' to start!"),
   ("thank you", "You're welcome! I'm always happy to help with files, emails, or anything else."),
   ("thanks", "No problem! Glad I could help. Need any file operations or other assistance?"),
   ("goodbye", "Goodbye! Remember, I'm here to help with file management and more anytime!"),
   ("bye", "See you later! Don't forget I can help organize your files or handle other tasks.")]

def fallbackDefaultMsg : String :=
  "I understand you're trying to communicate! I can help with file operations, email management, music, and conversation. For full AI features, configure your GROQ_API_KEY. What would you like to do?"

/-- `fallback_response`: first table key occurring in the lower-cased message
wins, else the generic message. -/
def fallback_response (u msg : String) : String :=
  match (fallbackTable u).find? (fun kv => strIn kv.1 (pyLower msg)) with
  | some kv => kv.2
  | none => fallbackDefaultMsg

/-! ## Outbound chat context and the chat operation
(conversation.py lines 167-236) -/

/-- `conversation_history[-15:] if len(conversation_history) > 15 else
conversation_history` (line 212). -/
def recentSlice (h : List Turn) : List Turn :=
  if h.length > 15 then h.drop (h.length - 15) else h

/-- The outbound message list of `groq_chat` (lines 209-222): system prompt,
then the recent history slice stripped to role and content, then the new
user message. -/
def buildGroqMessages (sys : String) (h : List Turn) (msg : String) : List ChatMsg :=
  ChatMsg.mk "system" sys ::
    ((recentSlice h).map (fun t => ChatMsg.mk t.role t.content) ++ [ChatMsg.mk "user" msg])

/-- `groq_chat`: call the remote with the built context; on success strip the
reply, on any failure fall back to the static table. -/
def groq_chat (remote : Remote) (st : ConvState) (now msg : String) : String :=
  let sys := get_system_prompt st.mode st.userName now
  match remote.chatReply (buildGroqMessages sys st.history msg) with
  | .ok s => pyStrip s
  | .error _ => fallback_response st.userName msg

/-- `add_to_history role content` with `ts` the `datetime.now().isoformat()`
value at the call site. -/
def add_to_history (st : ConvState) (role content ts : String) : ConvState :=
  { st with history := st.history ++ [Turn.mk role content ts] }

/-- `chat(message, mode)`: a non-empty mode argument overwrites the current
mode unconditionally (`if mode:`), the user turn is appended, a response is
generated (remote if a client is configured, else the static table), the
assistant turn is appended, and the full history is persisted.  `ts1`, `ts2`
are the timestamps of the two `add_to_history` calls and `now` the time used
in the system prompt.  Returns the response and the updated engine state. -/
def chat (remote : Remote) (st : ConvState) (msg : String) (mode : Option String)
    (now ts1 ts2 : String) : String × ConvState :=
  let st0 :=
    match mode with
    | some m => if m = "" then st else { st with mode := m }
    | none => st
  let st1 := add_to_history st0 "user" msg ts1
  let resp :=
    if st1.client then groq_chat remote st1 now msg
    else fallback_response st1.userName msg
  let st2 := add_to_history st1 "assistant" resp ts2
  (resp, st2)

/-! ## Mode switching and history maintenance
(conversation.py lines 429-443) -/

def valid_modes : List String := ["friend", "therapist", "workmate"]

/-- `change_mode(new_mode)`: the membership test and the stored mode both use
`new_mode.lower()`; the reply echoes the original argument.  Returns the
reply string and the updated state. -/
def change_mode (st : ConvState) (newMode : String) : String × ConvState :=
  if pyLower newMode ∈ valid_modes then
    ("Switched to " ++ newMode ++ " mode. I'm ready to help with files, emails, and more!",
     { st with mode := pyLower newMode })
  else
    ("Available modes: " ++ String.intercalate ", " valid_modes, st)

/-! ## Regex fallback extractor (conversation.py lines 346-391)

The three fixed regular expressions of `manual_email_extraction` are
hand-compiled into backtracking matchers over character lists, reproducing
`re.search` semantics: leftmost start position wins; greedy pieces try the
longest consumption first, lazy pieces the shortest; `$` matches the end of
the string or just before one final newline. -/

/-- Character class `[a-zA-Z0-9._%+-]` (the local part of the email regex). -/
def isEmailLocalChar (c : Char) : Bool :=
  c.isAlpha || c.isDigit || c == '.' || c == '_' || c == '%' || c == '+' || c == '-'

/-- Character class `[a-zA-Z0-9.-]` (the domain part of the email regex). -/
def isEmailDomainChar (c : Char) : Bool :=
  c.isAlpha || c.isDigit || c == '.' || c == '-'

/-- After the at-sign: try a domain prefix of exactly `k` characters, then a
literal dot, then a greedy alphabetic run of length at least two. -/
def tryDomainLen (l : List Char) (k : Nat) : Option (List Char) :=
  match l.drop k with
  | '.' :: rest =>
    let tld := rest.takeWhile Char.isAlpha
    if 2 ≤ tld.length then some (l.take k ++ '.' :: tld) else none
  | _ => none

/-- Greedy backtracking over the domain-prefix length, longest first. -/
def domainDescend (l : List Char) : Nat → Option (List Char)
  | 0 => none
  | k + 1 =>
    match tryDomainLen l (k + 1) with
    | some d => some d
    | none => domainDescend l k

/-- Match the email regex anchored at the head of `l`: a maximal local-part
run, an at-sign, then the greedy domain match. -/
def matchEmailAt (l : List Char) : Option (List Char) :=
  let localPart := l.takeWhile isEmailLocalChar
  if localPart.isEmpty then none
  else
    match l.drop localPart.length with
    | '@' :: rest =>
      let m := (rest.takeWhile isEmailDomainChar).length
      match domainDescend rest m with
      | some dom => some (localPart ++ '@' :: dom)
      | none => none
    | _ => none

/-- `re.search` of the email pattern: try each start position left to right. -/
def findEmail : List Char → Option (List Char)
  | [] => none
  | c :: rest =>
    match matchEmailAt (c :: rest) with
    | some r => some r
    | none => findEmail rest

/-- Case-insensitive literal: `lit` is given lower-cased; returns the
remainder of `l` after the literal. -/
def stripCI : List Char → List Char → Option (List Char)
  | [], l => some l
  | _ :: _, [] => none
  | a :: as, b :: bs => if a == b.toLower then stripCI as bs else none

/-- Python `$` without MULTILINE: end of input or just before a final newline. -/
def dollarEnd (l : List Char) : Bool :=
  l == [] || l == ['\n']

/-- Class `[^-\n]` of the subject capture group. -/
def notSubjectStop (c : Char) : Bool :=
  !(c == '-' || c == '\n')

/-- `\s+lit` as a success test: some j between 1 and the whitespace-run
length such that the literal follows after dropping j characters. -/
def wsPlusLitFrom (lit l : List Char) : Nat → Bool
  | 0 => false
  | j + 1 => (stripCI lit (l.drop (j + 1))).isSome || wsPlusLitFrom lit l j

def wsPlusLit (lit l : List Char) : Bool :=
  wsPlusLitFrom lit l (l.takeWhile pyIsSpace).length

/-- Is there a dash after dropping exactly `j` characters? -/
def dashAt (l : List Char) (j : Nat) : Bool :=
  match l.drop j with
  | '-' :: _ => true
  | _ => false

/-- `\s*-` as a success test: some j between 0 and the whitespace-run length
followed by a dash. -/
def wsStarDashFrom (l : List Char) : Nat → Bool
  | 0 => dashAt l 0
  | j + 1 => dashAt l (j + 1) || wsStarDashFrom l j

def wsStarDash (l : List Char) : Bool :=
  wsStarDashFrom l (l.takeWhile pyIsSpace).length

/-- The alternation `(?:\s+with|\s+and|\s*-|$)` ending the subject group. -/
def subjStop (l : List Char) : Bool :=
  wsPlusLit "with".data l || wsPlusLit "and".data l || wsStarDash l || dollarEnd l

/-- Lazy growth of the subject capture `[^-\n]+?`: after each character taken
into `acc` (kept reversed), first try to stop, else extend by one character
(at the end of input `subjStop` always holds through `$`). -/
def lazyGrow (acc : List Char) : List Char → Option (List Char)
  | [] => some acc.reverse
  | c :: rest' =>
    if subjStop (c :: rest') then some acc.reverse
    else if notSubjectStop c then lazyGrow (c :: acc) rest' else none

/-- The subject group must contain at least one character before any stop. -/
def lazyGroupStart : List Char → Option (List Char)
  | [] => none
  | c :: rest => if notSubjectStop c then lazyGrow [c] rest else none

/-- `\s+` before the subject group: greedy, longest consumption first, with
backtracking into shorter whitespace runs on failure. -/
def subjWsDescend (r : List Char) : Nat → Option (List Char)
  | 0 => none
  | j + 1 =>
    match lazyGroupStart (r.drop (j + 1)) with
    | some g => some g
    | none => subjWsDescend r j

/-- `\s+([^-\n]+?)(?:\s+with|\s+and|\s*-|$)`, the tail shared by both subject
patterns. -/
def afterSubject (r : List Char) : Option (List Char) :=
  subjWsDescend r (r.takeWhile pyIsSpace).length

/-- Pattern `subject\s+([^-\n]+?)(?:\s+with|\s+and|\s*-|$)` anchored at the
head (case-insensitive). -/
def matchSubjP1At (l : List Char) : Option (List Char) :=
  match stripCI "subject".data l with
  | some r => afterSubject r
  | none => none

/-- The `\s+subject...` continuation of the second subject pattern, greedy
over the whitespace length. -/
def subjP2Descend (r : List Char) : Nat → Option (List Char)
  | 0 => none
  | j + 1 =>
    match stripCI "subject".data (r.drop (j + 1)) with
    | some r2 =>
      match afterSubject r2 with
      | some g => some g
      | none => subjP2Descend r j
    | none => subjP2Descend r j

/-- Pattern `with\s+subject\s+([^-\n]+?)(?:\s+with|\s+and|\s*-|$)` anchored
at the head (case-insensitive). -/
def matchSubjP2At (l : List Char) : Option (List Char) :=
  match stripCI "with".data l with
  | some r => subjP2Descend r (r.takeWhile pyIsSpace).length
  | none => none

/-- `re.search`: try an anchored matcher at every start position. -/
def searchAt (f : List Char → Option (List Char)) : List Char → Option (List Char)
  | [] => f []
  | c :: rest =>
    match f (c :: rest) with
    | some g => some g
    | none => searchAt f rest

/-- `(.+)$`: a greedy non-newline run covering everything up to the end. -/
def msgGroup (l3 : List Char) : Option (List Char) :=
  let run := l3.takeWhile (fun c => !(c == '\n'))
  if run.isEmpty then none
  else if dollarEnd (l3.drop run.length) then some run else none

/-- Second `\s*` of the message tail, greedy longest first. -/
def msgDescend2 (l2 : List Char) : Nat → Option (List Char)
  | 0 => msgGroup l2
  | j + 1 =>
    match msgGroup (l2.drop (j + 1)) with
    | some g => some g
    | none => msgDescend2 l2 j

def msgWs2 (l2 : List Char) : Option (List Char) :=
  msgDescend2 l2 (l2.takeWhile pyIsSpace).length

/-- `[-:]?` of the message tail: greedy, so first try consuming the
separator when present. -/
def msgAfterWs (l1 : List Char) : Option (List Char) :=
  match l1 with
  | c :: rest =>
    if c == '-' || c == ':' then
      match msgWs2 rest with
      | some g => some g
      | none => msgWs2 l1
    else msgWs2 l1
  | [] => msgWs2 []

/-- First `\s*` of the message tail, greedy longest first. -/
def msgDescend1 (l : List Char) : Nat → Option (List Char)
  | 0 => msgAfterWs l
  | j + 1 =>
    match msgAfterWs (l.drop (j + 1)) with
    | some g => some g
    | none => msgDescend1 l j

/-- `\s*[-:]?\s*(.+)$`, the tail shared by all three message patterns. -/
def msgTail (l : List Char) : Option (List Char) :=
  msgDescend1 l (l.takeWhile pyIsSpace).length

/-- Pattern `message\s*[-:]?\s*(.+)$` anchored at the head. -/
def matchMsgP1At (l : List Char) : Option (List Char) :=
  match stripCI "message".data l with
  | some r => msgTail r
  | none => none

/-- The `\s+message...` continuation of `following\s+message\s*[-:]?\s*(.+)$`. -/
def msgP2Descend (r : List Char) : Nat → Option (List Char)
  | 0 => none
  | j + 1 =>
    match stripCI "message".data (r.drop (j + 1)) with
    | some r2 =>
      match msgTail r2 with
      | some g => some g
      | none => msgP2Descend r j
    | none => msgP2Descend r j

/-- Pattern `following\s+message\s*[-:]?\s*(.+)$` anchored at the head. -/
def matchMsgP2At (l : List Char) : Option (List Char) :=
  match stripCI "following".data l with
  | some r => msgP2Descend r (r.takeWhile pyIsSpace).length
  | none => none

/-- Pattern `say\s*[-:]?\s*(.+)$` anchored at the head. -/
def matchMsgP3At (l : List Char) : Option (List Char) :=
  match stripCI "say".data l with
  | some r => msgTail r
  | none => none

/-- `manual_email_extraction`: recipient from the email regex, subject and
message from their pattern lists (first pattern that matches anywhere wins,
captures stripped); a result is returned only when a recipient was found. -/
def manual_email_extraction (message : String) : Option EmailData :=
  let chars := message.data
  let recipient := (findEmail chars).map String.mk
  let subject :=
    match searchAt matchSubjP1At chars with
    | some g => some (String.mk (pyStripChars g))
    | none =>
      match searchAt matchSubjP2At chars with
      | some g => some (String.mk (pyStripChars g))
      | none => none
  let msgContent :=
    match searchAt matchMsgP1At chars with
    | some g => some (String.mk (pyStripChars g))
    | none =>
      match searchAt matchMsgP2At chars with
      | some g => some (String.mk (pyStripChars g))
      | none =>
        match searchAt matchMsgP3At chars with
        | some g => some (String.mk (pyStripChars g))
        | none => none
  match recipient with
  | some r => some (EmailData.mk (some r) subject msgContent)
  | none => none

/-! ## LLM email extraction (conversation.py lines 290-344) -/

/-- The code-fence cleaning step of `extract_email_details_llm` (lines
317-329).  Both paths raise in Python, so the translation always returns an
error: when the reply starts with a fence, line 321 evaluates
`lines.startswith(...)` on a `list`, which has no such attribute
(AttributeError); otherwise control reaches line 329, whose second
`content.replace(...)` is called with a single argument (TypeError).  Either
exception is caught by the enclosing handler of the extractor. -/
def cleanContent (content : String) : Except String String :=
  if pyStartsWith content "```" then
    .error "AttributeError: list object has no attribute startswith"
  else
    .error "TypeError: replace expected at least 2 arguments, got 1"

/-- `json.loads` restricted to the reply shape the extraction prompt demands:
one object with string-or-null fields.  (Dead code in the translation, since
`cleanContent` always errors before the parse is reached; escape sequences
inside strings are not needed for that shape and are not modelled.) -/
def parseJsonFields (fuel : Nat) (l : List Char) (acc : List (String × Option String)) :
    Option (List (String × Option String)) :=
  match fuel with
  | 0 => none
  | fuel + 1 =>
    match l.dropWhile pyIsSpace with
    | '"' :: rest =>
      let key := rest.takeWhile (fun c => !(c == '"'))
      match rest.drop key.length with
      | '"' :: afterKey =>
        match afterKey.dropWhile pyIsSpace with
        | ':' :: afterColon =>
          match afterColon.dropWhile pyIsSpace with
          | '"' :: v =>
            let val := v.takeWhile (fun c => !(c == '"'))
            match v.drop val.length with
            | '"' :: afterVal =>
              let acc := acc ++ [(String.mk key, some (String.mk val))]
              match afterVal.dropWhile pyIsSpace with
              | ',' :: more => parseJsonFields fuel more acc
              | '\x7d' :: tail => if (tail.dropWhile pyIsSpace).isEmpty then some acc else none
              | _ => none
            | _ => none
          | 'n' :: 'u' :: 'l' :: 'l' :: afterVal =>
            let acc := acc ++ [(String.mk key, none)]
            match afterVal.dropWhile pyIsSpace with
            | ',' :: more => parseJsonFields fuel more acc
            | '\x7d' :: tail => if (tail.dropWhile pyIsSpace).isEmpty then some acc else none
            | _ => none
          | _ => none
        | _ => none
      | _ => none
    | _ => none

def parseEmailJson (s : String) : Option EmailData :=
  match s.data.dropWhile pyIsSpace with
  | '\x7b' :: rest =>
    match parseJsonFields rest.length rest [] with
    | some fields =>
      let get := fun (k : String) => (fields.find? (fun kv => kv.1 == k)).bind Prod.snd
      some (EmailData.mk (get "recipient") (get "subject") (get "message"))
    | none => none
  | _ => none

/-- `extract_email_details_llm`: without a client return None; otherwise call
the remote, clean the reply and parse it; every failure along the way
(transport error, the cleaning exceptions, a JSON parse error) falls back to
`manual_email_extraction` on the original user message. -/
def extract_email_details_llm (remote : Remote) (st : ConvState) (message : String) :
    Option EmailData :=
  if !st.client then none
  else
    match remote.extractReply message with
    | .error _ => manual_email_extraction message
    | .ok raw =>
      match cleanContent (pyStrip raw) with
      | .error _ => manual_email_extraction message
      | .ok cleaned =>
        match parseEmailJson cleaned with
        | some d => some d
        | none => manual_email_extraction message

/-! ## Intent detection (conversation.py lines 44-165) -/

/-- Characters of the first segment after the leading separator, i.e.
`s.split(sep)[1]` when `s` starts with `sep`: everything up to the next
occurrence of the separator. -/
def takeUntilPat (pat : List Char) : List Char → List Char
  | [] => []
  | c :: rest => if headIs pat (c :: rest) then [] else c :: takeUntilPat pat rest

/-- `intent_response.split("FUNCTION:")[1].split("\n")[0].strip()` for a
reply that starts with `FUNCTION:`. -/
def parse_function_name (resp : String) : String :=
  let seg1 := takeUntilPat "FUNCTION:".data (resp.data.drop 9)
  String.mk (pyStripChars (seg1.takeWhile (fun c => !(c == '\n'))))

/-- `detect_intent`: without a client return None; on a transport error
return None; otherwise strip the reply and, when it starts with
`FUNCTION:`, extract the function name; any other reply shape is regular
conversation (None). -/
def detect_intent (remote : Remote) (st : ConvState) (message : String) :
    Option IntentResult :=
  if !st.client then none
  else
    match remote.intentReply message with
    | .error _ => none
    | .ok raw =>
      let r := pyStrip raw
      if pyStartsWith r "FUNCTION:" then some (.fcall (parse_function_name r) none)
      else none

/-- Line 47: `any(word in message.lower() for word in ["send", "mail"]) and
"@" in message`. -/
def emailPrecheck (message : String) : Bool :=
  (strIn "send" (pyLower message) || strIn "mail" (pyLower message)) && strIn "@" message

/-- Truthiness of `email_data.get("recipient")`: present and non-empty. -/
def optTruthy : Option String → Bool
  | some s => !(s == "")
  | none => false

/-- `detect_intent_and_respond`: first the detailed-email auto-extraction
branch (guarded by `emailPrecheck` and a truthy recipient), then
`detect_intent`, and otherwise a regular `chat` reply.  The dict built on
lines 50-59 carries the extracted fields as `params` (every reachable
`email_data` dict has all three keys present, so the `dict.get` defaults for
absent keys never fire).  Returns the outcome and the (possibly chat-updated)
engine state. -/
def detect_intent_and_respond (remote : Remote) (st : ConvState) (message : String)
    (now ts1 ts2 : String) : IntentResult × ConvState :=
  let viaIntent :=
    match detect_intent remote st message with
    | some i => (i, st)
    | none =>
      let r := chat remote st message none now ts1 ts2
      (.reply r.1, r.2)
  if emailPrecheck message then
    match extract_email_details_llm remote st message with
    | some d => if optTruthy d.recipient then (.fcall "send_email_auto" (some d), st) else viaIntent
    | none => viaIntent
  else viaIntent

/-! ## The agent and its router (main.py lines 141-480)

Capability modules are collaborators constructed optionally at startup: an
absent module is `none`; a present module is its handler function, whose
`.error` result stands for an exception raised inside the handler.  The
email module exposes the four entry points the router calls. -/

structure EmailModule where
  send_email_interactive : Unit → Except String String
  get_saved_draft : Unit → Except String String
  send_saved_draft : Unit → Except String String
  send_email_auto : Option String → Option String → Option String → Except String String

structure Agent where
  conversation : Option ConvState
  music : Option (String → Except String String)
  email : Option EmailModule
  file_manager : Option (String → Except String String)
  news : Option (String → Except String String)
  weather : Option (String → Except String String)
  calendar : Option (String → Except String String)
  launcher : Option (String → Except String String)
  system : Option (Unit → Except String String)

/-- Is the intent classifier taken: `self.conversation and
self.conversation.openai_client` (line 320). -/
def classifierConfigured (a : Agent) : Bool :=
  match a.conversation with
  | some st => st.client
  | none => false

/-- Invoke an optional single-string-argument module, or answer its
unavailability message.  The second component records which capability
handler actually ran. -/
def invokeStr (m : Option (String → Except String String)) (cap : Cap)
    (unavailableMsg command : String) : Except String String × Option Cap :=
  match m with
  | some h => (h command, some cap)
  | none => (.ok unavailableMsg, none)

/-- Invoke an optional no-argument module entry point. -/
def invokeUnit (m : Option (Unit → Except String String)) (cap : Cap)
    (unavailableMsg : String) : Except String String × Option Cap :=
  match m with
  | some h => (h (), some cap)
  | none => (.ok unavailableMsg, none)

def musicUnavailable : String := "🎵 Music module not available"
def emailUnavailable : String := "📧 Email module not available"
def filesUnavailable : String := "📁 File manager not available"
def newsUnavailable : String := "📰 News module not available"
def weatherUnavailable : String := "🌤️ Weather module not available"
def calendarUnavailable : String := "📅 Calendar module not available"
def launcherUnavailable : String := "🚀 App launcher not available"
def systemUnavailable : String := "📊 System monitor not available"

/-- The function names the `elif` chain of lines 329-436 recognizes, in
source order. -/
def recognized_functions : List String :=
  ["send_email", "play_music", "manage_files", "get_news", "get_weather",
   "schedule_event", "launch_app", "system_info", "get_draft", "send_draft",
   "send_email_auto"]

/-- The string-dispatch chain on a classifier function call (lines 329-436):
`none` means the name was not recognized and control falls through to the
keyword rules. -/
def dispatch_function (a : Agent) (fname : String) (params : Option EmailData)
    (command : String) : Option (Except String String × Option Cap) :=
  if fname = "send_email" then
    some (invokeUnit (a.email.map (fun em => em.send_email_interactive)) .email emailUnavailable)
  else if fname = "play_music" then
    some (invokeStr a.music .music musicUnavailable command)
  else if fname = "manage_files" then
    some (invokeStr a.file_manager .files filesUnavailable command)
  else if fname = "get_news" then
    some (invokeStr a.news .news newsUnavailable command)
  else if fname = "get_weather" then
    some (invokeStr a.weather .weather weatherUnavailable command)
  else if fname = "schedule_event" then
    some (invokeStr a.calendar .calendar calendarUnavailable command)
  else if fname = "launch_app" then
    some (invokeStr a.launcher .launcher launcherUnavailable command)
  else if fname = "system_info" then
    some (invokeUnit a.system .system systemUnavailable)
  else if fname = "get_draft" then
    some (invokeUnit (a.email.map (fun em => em.get_saved_draft)) .email emailUnavailable)
  else if fname = "send_draft" then
    some (invokeUnit (a.email.map (fun em => em.send_saved_draft)) .email emailUnavailable)
  else if fname = "send_email_auto" then
    let p := params.getD (EmailData.mk none none none)
    some (invokeUnit (a.email.map (fun em => fun _ => em.send_email_auto p.recipient p.subject p.message))
      .email emailUnavailable)
  else none

/-- `SpecterAgent.fallback_conversation` (lines 463-480): used when no
conversation engine exists at all. -/
def agentFallbackTable : List (String × String) :=
  [("hello", "Hello! I'm Specter, your AI assistant. How can I help you today?"),
   ("hi", "Hi there! What can I do for you?"),
   ("how are you", "I'm doing well and ready to help! What would you like to do?"),
   ("what can you do", "I can help with files, launching apps, system info, and more! Type 'help' to see all commands."),
   ("thank you", "You're welcome! I'm always here to help."),
   ("thanks", "No problem! Anything else I can help with?"),
   ("who are you", "I'm Specter, your personal AI assistant built for the hackathon!")]

def agentFallbackDefault : String :=
  "I understand you're trying to chat! For full AI conversation, configure OpenAI or Gemini API keys in your .env file. For now, I can help with specific tasks - type 'help' to see what I can do!"

def fallback_conversation (command : String) : String :=
  match agentFallbackTable.find? (fun kv => strIn kv.1 (pyLower command)) with
  | some kv => kv.2
  | none => agentFallbackDefault

/-- The keyword fallback branch of `process_command` (lines 403-458): the
`elif` chain over `command_clean`, ending in the conversation default (the
engine's `chat` when a conversation engine exists, else
`fallback_conversation`).  The `Option Cap` component records the capability
whose rule fired and, for the first eight, whose handler ran. -/
def keyword_route (a : Agent) (remote : Remote) (clean command : String)
    (now ts1 ts2 : String) : Except String String × Option Cap :=
  if anyWordIn musicWords clean then invokeStr a.music .music musicUnavailable command
  else if anyWordIn emailWords clean then
    invokeUnit (a.email.map (fun em => em.send_email_interactive)) .email emailUnavailable
  else if anyWordIn fileWords clean then invokeStr a.file_manager .files filesUnavailable command
  else if anyWordIn newsWords clean then invokeStr a.news .news newsUnavailable command
  else if anyWordIn weatherWords clean then invokeStr a.weather .weather weatherUnavailable command
  else if anyWordIn calendarWords clean then invokeStr a.calendar .calendar calendarUnavailable command
  else if anyWordIn launchWords clean then invokeStr a.launcher .launcher launcherUnavailable command
  else if anyWordIn systemWords clean then invokeUnit a.system .system systemUnavailable
  else
    match a.conversation with
    | some st => (.ok (chat remote st command none now ts1 ts2).1, some .conversation)
    | none => (.ok (fallback_conversation command), some .conversation)

/-- The body of `process_command`'s `try` block: classifier first when
configured, string dispatch on a recognized function call, a classifier chat
reply returned as is, and the keyword chain otherwise.  The history side
effects of `chat` are modelled inside `chat` itself; the router observes
only the response. -/
def process_body (a : Agent) (remote : Remote) (now ts1 ts2 : String)
    (command : String) : Except String String × Option Cap :=
  let clean := pyStrip (pyLower command)
  match a.conversation with
  | some st =>
    if st.client then
      match (detect_intent_and_respond remote st command now ts1 ts2).1 with
      | .fcall fname params =>
        match dispatch_function a fname params command with
        | some out => out
        | none => keyword_route a remote clean command now ts1 ts2
      | .reply s => (.ok s, none)
    else keyword_route a remote clean command now ts1 ts2
  | none => keyword_route a remote clean command now ts1 ts2

/-- Line 461: the message of the catch-all handler. -/
def sorryMsg (e : String) : String :=
  "Sorry, I encountered an error: " ++ e

/-- `process_command`: the try body with its catch-all converting an
exception into the apology message. -/
def process_command (a : Agent) (remote : Remote) (now ts1 ts2 : String)
    (command : String) : String :=
  match (process_body a remote now ts1 ts2 command).1 with
  | .ok s => s
  | .error e => sorryMsg e

/-- The handler a category's rule would run: `none` when the module is
absent or the category is the conversation default. -/
def runCap (a : Agent) (c : Cap) (command : String) : Option (Except String String) :=
  match c with
  | .music => a.music.map (fun h => h command)
  | .email => a.email.map (fun em => em.send_email_interactive ())
  | .files => a.file_manager.map (fun h => h command)
  | .news => a.news.map (fun h => h command)
  | .weather => a.weather.map (fun h => h command)
  | .calendar => a.calendar.map (fun h => h command)
  | .launcher => a.launcher.map (fun h => h command)
  | .system => a.system.map (fun h => h ())
  | .conversation => none

/-! ## History persistence (conversation.py lines 402-427)

`save_conversation_history` writes `json.dump(conversation_history)` to the
flat file and `load_conversation_history` reads it back with `json.load`.
The file is modelled at the level of the parsed JSON tree (the Python json
round trip through the actual byte representation is a standard-library
collaborator); `none` stands for an absent file. -/

inductive Json where
  | null : Json
  | str : String → Json
  | arr : List Json → Json
  | obj : List (String × Json) → Json

/-- `json.dump` of one history entry: the dict built by `add_to_history`. -/
def turnToJson (t : Turn) : Json :=
  .obj [("role", .str t.role), ("content", .str t.content), ("timestamp", .str t.timestamp)]

/-- `json.dump(self.conversation_history)`: the whole list, in order. -/
def historyToJson (h : List Turn) : Json :=
  .arr (h.map turnToJson)

/-- `save_conversation_history`: the file afterwards holds the full history. -/
def save_conversation_history (st : ConvState) : Json :=
  historyToJson st.history

def jfield (k : String) : List (String × Json) → Option Json
  | [] => none
  | kv :: rest => if kv.1 = k then some kv.2 else jfield k rest

/-- Read one persisted entry back as the turn it denotes. -/
def jsonToTurn : Json → Option Turn
  | .obj fields =>
    match jfield "role" fields, jfield "content" fields, jfield "timestamp" fields with
    | some (.str r), some (.str c), some (.str ts) => some (Turn.mk r c ts)
    | _, _, _ => none
  | _ => none

def decodeTurns : List Json → Option (List Turn)
  | [] => some []
  | j :: rest =>
    match jsonToTurn j, decodeTurns rest with
    | some t, some ts => some (t :: ts)
    | _, _ => none

def jsonToHistory : Json → Option (List Turn)
  | .arr xs => decodeTurns xs
  | _ => none

/-- `load_conversation_history` on a fresh engine: an absent file leaves the
initial empty history; an existing file is parsed and assigned.  (The source
assigns `json.load`'s value without validation; a file that does not denote
a turn list cannot inhabit `List Turn` here and is mapped to the empty
history, a case unreachable for files written by
`save_conversation_history`.) -/
def load_conversation_history (file : Option Json) : List Turn :=
  match file with
  | none => []
  | some j =>
    match jsonToHistory j with
    | some h => h
    | none => []


/-! ## Shared lemmas about the router -/

theorem invokeStr_snd_of_err {m : Option (String → Except String String)} {cap : Cap} {msg cmd e : String}
    (he : (invokeStr m cap msg cmd).1 = .error e) : (invokeStr m cap msg cmd).2 = some cap := by
  cases m with
  | none => exact absurd he (by simp [invokeStr])
  | some h => rfl

theorem invokeUnit_snd_of_err {m : Option (Unit → Except String String)} {cap : Cap} {msg e : String}
    (he : (invokeUnit m cap msg).1 = .error e) : (invokeUnit m cap msg).2 = some cap := by
  cases m with
  | none => exact absurd he (by simp [invokeUnit])
  | some h => rfl

theorem pb_conv_none {a : Agent} {remote : Remote} {now ts1 ts2 cmd : String}
    (hc : a.conversation = none) :
    process_body a remote now ts1 ts2 cmd =
      keyword_route a remote (pyStrip (pyLower cmd)) cmd now ts1 ts2 := by
  unfold process_body
  rw [hc]

theorem pb_client_false {a : Agent} {st : ConvState} {remote : Remote} {now ts1 ts2 cmd : String}
    (hc : a.conversation = some st) (hcl : st.client = false) :
    process_body a remote now ts1 ts2 cmd =
      keyword_route a remote (pyStrip (pyLower cmd)) cmd now ts1 ts2 := by
  unfold process_body
  rw [hc]
  dsimp only
  rw [hcl, if_neg Bool.false_ne_true]

theorem pb_reply {a : Agent} {st : ConvState} {remote : Remote} {now ts1 ts2 cmd s : String}
    (hc : a.conversation = some st) (hcl : st.client = true)
    (hi : (detect_intent_and_respond remote st cmd now ts1 ts2).1 = .reply s) :
    process_body a remote now ts1 ts2 cmd = (.ok s, none) := by
  unfold process_body
  rw [hc]
  dsimp only
  rw [hcl, if_pos rfl, hi]

theorem pb_fcall {a : Agent} {st : ConvState} {remote : Remote} {now ts1 ts2 cmd fname : String}
    {params : Option EmailData} {out : Except String String × Option Cap}
    (hc : a.conversation = some st) (hcl : st.client = true)
    (hi : (detect_intent_and_respond remote st cmd now ts1 ts2).1 = .fcall fname params)
    (hd : dispatch_function a fname params cmd = some out) :
    process_body a remote now ts1 ts2 cmd = out := by
  unfold process_body
  rw [hc]
  dsimp only
  rw [hcl, if_pos rfl, hi]
  dsimp only
  rw [hd]

theorem pb_fallthrough {a : Agent} {st : ConvState} {remote : Remote} {now ts1 ts2 cmd fname : String}
    {params : Option EmailData}
    (hc : a.conversation = some st) (hcl : st.client = true)
    (hi : (detect_intent_and_respond remote st cmd now ts1 ts2).1 = .fcall fname params)
    (hd : dispatch_function a fname params cmd = none) :
    process_body a remote now ts1 ts2 cmd =
      keyword_route a remote (pyStrip (pyLower cmd)) cmd now ts1 ts2 := by
  unfold process_body
  rw [hc]
  dsimp only
  rw [hcl, if_pos rfl, hi]
  dsimp only
  rw [hd]

theorem dispatch_error {a : Agent} {fname : String} {params : Option EmailData}
    {cmd e : String} {out : Except String String × Option Cap}
    (hd : dispatch_function a fname params cmd = some out)
    (he : out.1 = .error e) : out.2.isSome := by
  unfold dispatch_function at hd
  by_cases h1 : fname = "send_email"
  · simp only [if_pos h1] at hd
    injection hd with hd
    subst hd
    rw [invokeUnit_snd_of_err he]
    rfl
  simp only [if_neg h1] at hd
  by_cases h2 : fname = "play_music"
  · simp only [if_pos h2] at hd
    injection hd with hd
    subst hd
    rw [invokeStr_snd_of_err he]
    rfl
  simp only [if_neg h2] at hd
  by_cases h3 : fname = "manage_files"
  · simp only [if_pos h3] at hd
    injection hd with hd
    subst hd
    rw [invokeStr_snd_of_err he]
    rfl
  simp only [if_neg h3] at hd
  by_cases h4 : fname = "get_news"
  · simp only [if_pos h4] at hd
    injection hd with hd
    subst hd
    rw [invokeStr_snd_of_err he]
    rfl
  simp only [if_neg h4] at hd
  by_cases h5 : fname = "get_weather"
  · simp only [if_pos h5] at hd
    injection hd with hd
    subst hd
    rw [invokeStr_snd_of_err he]
    rfl
  simp only [if_neg h5] at hd
  by_cases h6 : fname = "schedule_event"
  · simp only [if_pos h6] at hd
    injection hd with hd
    subst hd
    rw [invokeStr_snd_of_err he]
    rfl
  simp only [if_neg h6] at hd
  by_cases h7 : fname = "launch_app"
  · simp only [if_pos h7] at hd
    injection hd with hd
    subst hd
    rw [invokeStr_snd_of_err he]
    rfl
  simp only [if_neg h7] at hd
  by_cases h8 : fname = "system_info"
  · simp only [if_pos h8] at hd
    injection hd with hd
    subst hd
    rw [invokeUnit_snd_of_err he]
    rfl
  simp only [if_neg h8] at hd
  by_cases h9 : fname = "get_draft"
  · simp only [if_pos h9] at hd
    injection hd with hd
    subst hd
    rw [invokeUnit_snd_of_err he]
    rfl
  simp only [if_neg h9] at hd
  by_cases h10 : fname = "send_draft"
  · simp only [if_pos h10] at hd
    injection hd with hd
    subst hd
    rw [invokeUnit_snd_of_err he]
    rfl
  simp only [if_neg h10] at hd
  by_cases h11 : fname = "send_email_auto"
  · simp only [if_pos h11] at hd
    injection hd with hd
    subst hd
    rw [invokeUnit_snd_of_err he]
    rfl
  simp only [if_neg h11] at hd
  exact absurd hd (by simp)

theorem keyword_route_error {a : Agent} {remote : Remote} {clean cmd t1 t2 t3 e : String}
    (he : (keyword_route a remote clean cmd t1 t2 t3).1 = .error e) :
    (keyword_route a remote clean cmd t1 t2 t3).2.isSome := by
  unfold keyword_route at he ⊢
  by_cases h1 : anyWordIn musicWords clean = true
  · simp only [if_pos h1] at he ⊢
    rw [invokeStr_snd_of_err he]
    rfl
  simp only [if_neg h1] at he ⊢
  by_cases h2 : anyWordIn emailWords clean = true
  · simp only [if_pos h2] at he ⊢
    rw [invokeUnit_snd_of_err he]
    rfl
  simp only [if_neg h2] at he ⊢
  by_cases h3 : anyWordIn fileWords clean = true
  · simp only [if_pos h3] at he ⊢
    rw [invokeStr_snd_of_err he]
    rfl
  simp only [if_neg h3] at he ⊢
  by_cases h4 : anyWordIn newsWords clean = true
  · simp only [if_pos h4] at he ⊢
    rw [invokeStr_snd_of_err he]
    rfl
  simp only [if_neg h4] at he ⊢
  by_cases h5 : anyWordIn weatherWords clean = true
  · simp only [if_pos h5] at he ⊢
    rw [invokeStr_snd_of_err he]
    rfl
  simp only [if_neg h5] at he ⊢
  by_cases h6 : anyWordIn calendarWords clean = true
  · simp only [if_pos h6] at he ⊢
    rw [invokeStr_snd_of_err he]
    rfl
  simp only [if_neg h6] at he ⊢
  by_cases h7 : anyWordIn launchWords clean = true
  · simp only [if_pos h7] at he ⊢
    rw [invokeStr_snd_of_err he]
    rfl
  simp only [if_neg h7] at he ⊢
  by_cases h8 : anyWordIn systemWords clean = true
  · simp only [if_pos h8] at he ⊢
    rw [invokeUnit_snd_of_err he]
    rfl
  simp only [if_neg h8] at he ⊢
  cases hc : a.conversation with
  | none => rw [hc] at he; exact absurd he (by simp)
  | some st => rw [hc] at he; exact absurd he (by simp)

theorem keyword_route_invokes {a : Agent} {remote : Remote} {clean cmd t1 t2 t3 : String}
    {r : Except String String}
    (hr : runCap a (keywordCategory clean) cmd = some r) :
    keyword_route a remote clean cmd t1 t2 t3 = (r, some (keywordCategory clean)) := by
  unfold keywordCategory at hr ⊢
  unfold keyword_route
  by_cases h1 : anyWordIn musicWords clean = true
  · simp only [if_pos h1] at hr ⊢
    simp only [runCap] at hr
    cases hm1 : a.music with
    | none => rw [hm1] at hr; exact absurd hr (by simp)
    | some h => rw [hm1] at hr; injection hr with hr; subst hr; rfl
  simp only [if_neg h1] at hr ⊢
  by_cases h2 : anyWordIn emailWords clean = true
  · simp only [if_pos h2] at hr ⊢
    simp only [runCap] at hr
    cases hm2 : a.email with
    | none => rw [hm2] at hr; exact absurd hr (by simp)
    | some h => rw [hm2] at hr; injection hr with hr; subst hr; rfl
  simp only [if_neg h2] at hr ⊢
  by_cases h3 : anyWordIn fileWords clean = true
  · simp only [if_pos h3] at hr ⊢
    simp only [runCap] at hr
    cases hm3 : a.file_manager with
    | none => rw [hm3] at hr; exact absurd hr (by simp)
    | some h => rw [hm3] at hr; injection hr with hr; subst hr; rfl
  simp only [if_neg h3] at hr ⊢
  by_cases h4 : anyWordIn newsWords clean = true
  · simp only [if_pos h4] at hr ⊢
    simp only [runCap] at hr
    cases hm4 : a.news with
    | none => rw [hm4] at hr; exact absurd hr (by simp)
    | some h => rw [hm4] at hr; injection hr with hr; subst hr; rfl
  simp only [if_neg h4] at hr ⊢
  by_cases h5 : anyWordIn weatherWords clean = true
  · simp only [if_pos h5] at hr ⊢
    simp only [runCap] at hr
    cases hm5 : a.weather with
    | none => rw [hm5] at hr; exact absurd hr (by simp)
    | some h => rw [hm5] at hr; injection hr with hr; subst hr; rfl
  simp only [if_neg h5] at hr ⊢
  by_cases h6 : anyWordIn calendarWords clean = true
  · simp only [if_pos h6] at hr ⊢
    simp only [runCap] at hr
    cases hm6 : a.calendar with
    | none => rw [hm6] at hr; exact absurd hr (by simp)
    | some h => rw [hm6] at hr; injection hr with hr; subst hr; rfl
  simp only [if_neg h6] at hr ⊢
  by_cases h7 : anyWordIn launchWords clean = true
  · simp only [if_pos h7] at hr ⊢
    simp only [runCap] at hr
    cases hm7 : a.launcher with
    | none => rw [hm7] at hr; exact absurd hr (by simp)
    | some h => rw [hm7] at hr; injection hr with hr; subst hr; rfl
  simp only [if_neg h7] at hr ⊢
  by_cases h8 : anyWordIn systemWords clean = true
  · simp only [if_pos h8] at hr ⊢
    simp only [runCap] at hr
    cases hm8 : a.system with
    | none => rw [hm8] at hr; exact absurd hr (by simp)
    | some h => rw [hm8] at hr; injection hr with hr; subst hr; rfl
  simp only [if_neg h8] at hr ⊢
  simp only [runCap] at hr
  exact absurd hr (by simp)

/-! ## Claim theorems -/

/-- C1.  On the keyword fallback path (classifier not taken) the router
evaluates the keyword rules by substring containment against the lower-cased
command in the fixed priority order music, email, files, news, weather,
calendar, app-launch, system, conversation-default, and the first matching
rule's capability is the one invoked: the source `elif` chain coincides with
the ordered-priority-table reading everywhere (so whenever two categories
both match, the earlier one wins), the classifier-free router runs exactly
the keyword chain, and an available first-matching capability's handler
result is the route's result. -/
theorem keyword_priority_order (a : Agent) (remote : Remote) (now ts1 ts2 cmd : String) :
    (∀ s : String, keywordCategory s = priorityFirstMatch s) ∧
    (classifierConfigured a = false →
      process_body a remote now ts1 ts2 cmd =
        keyword_route a remote (pyStrip (pyLower cmd)) cmd now ts1 ts2) ∧
    (∀ r : Except String String,
      runCap a (keywordCategory (pyStrip (pyLower cmd))) cmd = some r →
      keyword_route a remote (pyStrip (pyLower cmd)) cmd now ts1 ts2 =
        (r, some (keywordCategory (pyStrip (pyLower cmd))))) := by
  refine ⟨fun s => rfl, ?_, fun r hr => keyword_route_invokes hr⟩
  intro h
  unfold classifierConfigured at h
  cases hc : a.conversation with
  | none => exact pb_conv_none hc
  | some st => rw [hc] at h; exact pb_client_false hc h

/-- Agent with no classifier and a stub music handler answering OK:command. -/
def stubAgent : Agent :=
  { conversation := none
    music := some (fun c => .ok ("OK:" ++ c))
    email := none, file_manager := none, news := none, weather := none
    calendar := none, launcher := none, system := none }

/-- A remote that always fails (never consulted on the keyword path). -/
def stubRemote : Remote :=
  { intentReply := fun _ => .error "unreachable"
    chatReply := fun _ => .error "unreachable"
    extractReply := fun _ => .error "unreachable" }

theorem keyword_priority_order_witness :
    process_body stubAgent stubRemote "t" "t" "t" "play despacito" =
      (.ok "OK:play despacito", some Cap.music) := by
  have h := keyword_priority_order stubAgent stubRemote "t" "t" "t" "play despacito"
  rw [h.2.1 rfl]
  exact h.2.2 (.ok "OK:play despacito") (by decide)

/-- C2.  `process_command` always returns a string (it is a total function
into `String`), and whenever the body of its `try` block raises, the
exception came from an invoked capability handler and is converted into the
apology message carrying the exception text. -/
theorem router_error_conversion (a : Agent) (remote : Remote) (now ts1 ts2 cmd e : String)
    (he : (process_body a remote now ts1 ts2 cmd).1 = .error e) :
    process_command a remote now ts1 ts2 cmd = sorryMsg e ∧
      (process_body a remote now ts1 ts2 cmd).2.isSome := by
  refine ⟨by unfold process_command; rw [he], ?_⟩
  cases hc : a.conversation with
  | none => rw [pb_conv_none hc] at he ⊢; exact keyword_route_error he
  | some st =>
    cases hcl : st.client with
    | false => rw [pb_client_false hc hcl] at he ⊢; exact keyword_route_error he
    | true =>
      cases hi : (detect_intent_and_respond remote st cmd now ts1 ts2).1 with
      | reply s => rw [pb_reply hc hcl hi] at he; exact absurd he (by simp)
      | fcall fname params =>
        cases hd : dispatch_function a fname params cmd with
        | none => rw [pb_fallthrough hc hcl hi hd] at he ⊢; exact keyword_route_error he
        | some out => rw [pb_fcall hc hcl hi hd] at he ⊢; exact dispatch_error hd he

/-- Agent whose music handler raises. -/
def raisingAgent : Agent :=
  { conversation := none
    music := some (fun _ => .error "boom")
    email := none, file_manager := none, news := none, weather := none
    calendar := none, launcher := none, system := none }

theorem router_error_conversion_witness :
    process_command raisingAgent stubRemote "t" "t" "t" "play x" =
      "Sorry, I encountered an error: boom" ∧
      (process_body raisingAgent stubRemote "t" "t" "t" "play x").2.isSome := by
  have h := router_error_conversion raisingAgent stubRemote "t" "t" "t" "play x" "boom" (by decide)
  exact ⟨h.1.trans (by decide), h.2⟩

/-- When the email precheck fails and the remote intent call errors,
`detect_intent_and_respond` answers with a regular chat reply. -/
theorem diar_reply_of_remote_error {remote : Remote} {st : ConvState} {cmd now ts1 ts2 e : String}
    (hcl : st.client = true)
    (hpre : emailPrecheck cmd = false)
    (hir : remote.intentReply cmd = .error e) :
    (detect_intent_and_respond remote st cmd now ts1 ts2).1 =
      .reply (chat remote st cmd none now ts1 ts2).1 := by
  unfold detect_intent_and_respond
  rw [hpre, if_neg Bool.false_ne_true]
  unfold detect_intent
  rw [hcl]
  simp only [Bool.not_true, if_neg Bool.false_ne_true, hir]

/-- An unrecognized function name makes the dispatch chain fall through. -/
theorem unrecognized_dispatch_none (a : Agent) (fname : String) (params : Option EmailData)
    (cmd : String) (hn : fname ∉ recognized_functions) :
    dispatch_function a fname params cmd = none := by
  simp only [recognized_functions, List.mem_cons, List.not_mem_nil, or_false, not_or] at hn
  obtain ⟨n1, n2, n3, n4, n5, n6, n7, n8, n9, n10, n11⟩ := hn
  unfold dispatch_function
  rw [if_neg n1, if_neg n2, if_neg n3, if_neg n4, if_neg n5, if_neg n6, if_neg n7,
    if_neg n8, if_neg n9, if_neg n10, if_neg n11]

/-- Conversation engine state with a configured client. -/
def c3St : ConvState :=
  { client := true, history := [], mode := "friend", userName := "User" }

/-- Agent with a configured classifier and an available file manager stub. -/
def c3Agent : Agent :=
  { conversation := some c3St
    music := none, email := none
    file_manager := some (fun c => .ok ("FILES:" ++ c))
    news := none, weather := none, calendar := none, launcher := none, system := none }

/-- A remote whose every call times out. -/
def c3Remote : Remote :=
  { intentReply := fun _ => .error "timed out"
    chatReply := fun _ => .error "timed out"
    extractReply := fun _ => .error "timed out" }

/-- C3, counterexample.  With a configured classifier whose remote call
fails, the command "organize my downloads" is NOT routed to the available
files capability: the router returns the conversation engine's generic
fallback reply, no capability handler is invoked, and the response differs
from the files handler's output. -/
theorem classifier_failure_counterexample :
    process_body c3Agent c3Remote "t" "t" "t" "organize my downloads" =
      (.ok fallbackDefaultMsg, none) ∧
    (process_body c3Agent c3Remote "t" "t" "t" "organize my downloads").2 ≠ some Cap.files ∧
    process_command c3Agent c3Remote "t" "t" "t" "organize my downloads" ≠
      "FILES:organize my downloads" := by
  refine ⟨by decide, ?_, ?_⟩ <;> decide

/-- C3, amended.  When no conversation engine with a client is configured the
router applies the deterministic keyword rules; but when a configured
classifier's remote call fails (and the email precheck does not fire), the
router returns the conversation engine's chat fallback reply and does not
consult the keyword rules or invoke any capability handler. -/
theorem classifier_failure_amended (a : Agent) (st : ConvState) (remote : Remote)
    (now ts1 ts2 cmd e : String)
    (hc : a.conversation = some st) (hcl : st.client = true)
    (hpre : emailPrecheck cmd = false)
    (hir : remote.intentReply cmd = .error e) :
    process_body a remote now ts1 ts2 cmd =
      (.ok (chat remote st cmd none now ts1 ts2).1, none) ∧
    (∀ b : Agent, b.conversation = none →
      process_body b remote now ts1 ts2 cmd =
        keyword_route b remote (pyStrip (pyLower cmd)) cmd now ts1 ts2) :=
  ⟨pb_reply hc hcl (diar_reply_of_remote_error hcl hpre hir),
   fun _ hb => pb_conv_none hb⟩

theorem classifier_failure_amended_witness :
    process_body c3Agent c3Remote "t" "t" "t" "organize my downloads" =
      (.ok (chat c3Remote c3St "organize my downloads" none "t" "t" "t").1, none) :=
  (classifier_failure_amended c3Agent c3St c3Remote "t" "t" "t" "organize my downloads"
    "timed out" rfl rfl (by decide) rfl).1

/-- C4.  When the classifier names a function outside the recognized list,
the router falls through to the keyword chain (whose own default is the
conversation fallback) instead of raising or returning an error. -/
theorem unrecognized_function_falls_through (a : Agent) (st : ConvState) (remote : Remote)
    (now ts1 ts2 cmd fname : String) (params : Option EmailData)
    (hc : a.conversation = some st) (hcl : st.client = true)
    (hi : (detect_intent_and_respond remote st cmd now ts1 ts2).1 = .fcall fname params)
    (hn : fname ∉ recognized_functions) :
    process_body a remote now ts1 ts2 cmd =
      keyword_route a remote (pyStrip (pyLower cmd)) cmd now ts1 ts2 :=
  pb_fallthrough hc hcl hi (unrecognized_dispatch_none a fname params cmd hn)

/-- Remote whose intent classifier names an unknown function. -/
def c4Remote : Remote :=
  { intentReply := fun _ => .ok "FUNCTION: frobnicate"
    chatReply := fun _ => .error "down"
    extractReply := fun _ => .error "down" }

theorem unrecognized_function_falls_through_witness :
    process_body c3Agent c4Remote "t" "t" "t" "tell me a joke" =
      keyword_route c3Agent c4Remote (pyStrip (pyLower "tell me a joke"))
        "tell me a joke" "t" "t" "t" :=
  unrecognized_function_falls_through c3Agent c3St c4Remote "t" "t" "t" "tell me a joke"
    "frobnicate" none rfl rfl (by decide) (by decide)

/-- A structured extraction reply wrapped in code fences, whose payload is a
valid JSON object of the expected shape. -/
def c5Fenced : String :=
  "```json\n\x7b\"recipient\": \"bob@example.com\", \"subject\": null, \"message\": null\x7d\n```"

/-- The same payload with the fences stripped. -/
def c5Payload : String :=
  "\x7b\"recipient\": \"bob@example.com\", \"subject\": null, \"message\": null\x7d"

/-- Remote whose extraction reply is the fenced object. -/
def c5Remote : Remote :=
  { intentReply := fun _ => .error "n/a"
    chatReply := fun _ => .error "n/a"
    extractReply := fun _ => .ok c5Fenced }

/-- C5, code bug.  The fence-stripping code of `extract_email_details_llm`
raises on every reply (AttributeError on the fenced path, TypeError on the
unfenced path), so a code-fence-wrapped valid reply is never parsed: the
stripped payload would parse to the expected object, yet the extractor falls
back to the regex path on the original user message and here returns None
instead of the reply's object. -/
theorem fence_stripping_code_bug :
    cleanContent c5Fenced = .error "AttributeError: list object has no attribute startswith" ∧
    parseEmailJson c5Payload = some (EmailData.mk (some "bob@example.com") none none) ∧
    extract_email_details_llm c5Remote c3St "please forward this to the team" = none ∧
    (∀ s : String, ∃ msg, cleanContent s = Except.error msg) := by
  refine ⟨by decide, by decide, by decide, fun s => ?_⟩
  unfold cleanContent
  by_cases h : pyStartsWith s "```" = true
  · exact ⟨_, by rw [if_pos h]⟩
  · exact ⟨_, by rw [if_neg h]⟩

/-- C6.  When the remote structured-extraction call fails, the regex fallback
on the input "send an email to bob@example.com subject Hi message see you"
still recovers the recipient: the extraction returns a non-null result whose
recipient is bob@example.com. -/
theorem regex_fallback_recovers_recipient (remote : Remote) (st : ConvState) (e : String)
    (hcl : st.client = true)
    (hx : remote.extractReply "send an email to bob@example.com subject Hi message see you" =
      .error e) :
    extract_email_details_llm remote st
        "send an email to bob@example.com subject Hi message see you" =
      some (EmailData.mk (some "bob@example.com") (some "Hi message see you") (some "see you")) := by
  unfold extract_email_details_llm
  rw [hcl]
  simp only [Bool.not_true, if_neg Bool.false_ne_true, hx]
  decide

theorem regex_fallback_recovers_recipient_witness :
    extract_email_details_llm c3Remote c3St
        "send an email to bob@example.com subject Hi message see you" =
      some (EmailData.mk (some "bob@example.com") (some "Hi message see you") (some "see you")) :=
  regex_fallback_recovers_recipient c3Remote c3St "timed out" rfl rfl

/-- C7.  Persisting any conversation history and loading it into a fresh
engine yields the same turns, with the same roles, contents and timestamps,
in the same order — nothing reordered, dropped or deduplicated. -/
theorem history_round_trip (h : List Turn) :
    load_conversation_history (some (historyToJson h)) = h := by
  unfold load_conversation_history historyToJson jsonToHistory
  dsimp only
  suffices hs : decodeTurns (h.map turnToJson) = some h by rw [hs]
  induction h with
  | nil => rfl
  | cons t ts ih =>
    have hjt : jsonToTurn (turnToJson t) = some t := rfl
    simp only [List.map_cons, decodeTurns, hjt, ih]

/-- Engine state used by the mode-change scenarios. -/
def st8 : ConvState :=
  { client := false, history := [], mode := "friend", userName := "User" }

/-- C8, counterexample.  "THERAPIST" is none of the names friend, therapist,
workmate, yet `change_mode` does not leave the state unchanged and does not
return the valid set: the membership test lower-cases its argument, so the
mode becomes "therapist" and the reply is the switch confirmation. -/
theorem change_mode_case_counterexample :
    (change_mode st8 "THERAPIST").2.mode = "therapist" ∧
    (change_mode st8 "THERAPIST").2.mode ≠ st8.mode ∧
    (change_mode st8 "THERAPIST").1 ≠ "Available modes: friend, therapist, workmate" ∧
    "THERAPIST" ≠ "friend" ∧ "THERAPIST" ≠ "therapist" ∧ "THERAPIST" ≠ "workmate" := by
  decide

/-- C8, amended.  `change_mode` accepts the three mode names
case-insensitively: when the lower-cased argument is one of friend,
therapist, workmate, the current mode becomes that lower-cased name (so for
each valid name itself the mode becomes exactly that name) and the reply
confirms the switch; for every other argument the reply is the valid-mode
set and the whole state is unchanged. -/
theorem change_mode_amended (st : ConvState) (name : String) :
    (pyLower name ∈ valid_modes →
      change_mode st name =
        ("Switched to " ++ name ++ " mode. I'm ready to help with files, emails, and more!",
         { st with mode := pyLower name })) ∧
    (pyLower name ∉ valid_modes →
      change_mode st name = ("Available modes: friend, therapist, workmate", st)) := by
  constructor <;> intro h
  · unfold change_mode
    rw [if_pos h]
  · unfold change_mode
    rw [if_neg h]
    simp only [Prod.mk.injEq]
    exact ⟨by decide, trivial⟩

theorem change_mode_amended_witness :
    change_mode st8 "therapist" =
      ("Switched to therapist mode. I'm ready to help with files, emails, and more!",
       { st8 with mode := "therapist" }) ∧
    change_mode st8 "blah" = ("Available modes: friend, therapist, workmate", st8) := by
  constructor
  · exact ((change_mode_amended st8 "therapist").1 (by decide)).trans (by decide)
  · exact (change_mode_amended st8 "blah").2 (by decide)

/-- C9.  The outbound chat context holds the system prompt, at most the most
recent 15 turns of the history (a suffix, all of it when the history has at
most 15 turns, in order), and the new user message — while `chat` keeps and
persists the full unbounded history (both appended turns included). -/
theorem outbound_context_bounded (h : List Turn) (sys msg : String) (remote : Remote)
    (st : ConvState) (now ts1 ts2 : String) :
    (recentSlice h).length ≤ 15 ∧
    recentSlice h <:+ h ∧
    (h.length ≤ 15 → recentSlice h = h) ∧
    buildGroqMessages sys h msg =
      ChatMsg.mk "system" sys ::
        ((recentSlice h).map (fun t => ChatMsg.mk t.role t.content) ++ [ChatMsg.mk "user" msg]) ∧
    (chat remote st msg none now ts1 ts2).2.history =
      st.history ++ [Turn.mk "user" msg ts1,
        Turn.mk "assistant" (chat remote st msg none now ts1 ts2).1 ts2] ∧
    save_conversation_history (chat remote st msg none now ts1 ts2).2 =
      historyToJson (st.history ++ [Turn.mk "user" msg ts1,
        Turn.mk "assistant" (chat remote st msg none now ts1 ts2).1 ts2]) := by
  have hhist : (chat remote st msg none now ts1 ts2).2.history =
      st.history ++ [Turn.mk "user" msg ts1,
        Turn.mk "assistant" (chat remote st msg none now ts1 ts2).1 ts2] := by
    simp [chat, add_to_history]
  refine ⟨?_, ?_, ?_, rfl, hhist, ?_⟩
  · unfold recentSlice
    split_ifs with hn
    · rw [List.length_drop]
      omega
    · omega
  · unfold recentSlice
    split_ifs
    · exact List.drop_suffix _ _
    · exact List.suffix_refl h
  · intro hle
    unfold recentSlice
    rw [if_neg (by omega)]
  · unfold save_conversation_history
    rw [hhist]

theorem outbound_context_bounded_witness :
    recentSlice [Turn.mk "user" "a" "t", Turn.mk "assistant" "b" "t"] =
      [Turn.mk "user" "a" "t", Turn.mk "assistant" "b" "t"] ∧
    (chat c3Remote st8 "hello" none "t" "t1" "t2").2.history =
      [Turn.mk "user" "hello" "t1",
       Turn.mk "assistant" (chat c3Remote st8 "hello" none "t" "t1" "t2").1 "t2"] := by
  have h := outbound_context_bounded [Turn.mk "user" "a" "t", Turn.mk "assistant" "b" "t"]
    "s" "hello" c3Remote st8 "t" "t1" "t2"
  exact ⟨h.2.2.1 (by decide), (outbound_context_bounded [] "s" "hello" c3Remote st8
    "t" "t1" "t2").2.2.2.2.1.trans (by simp [st8])⟩

/-- C10.  The optional mode parameter of `chat` bypasses mode validation:
any non-empty string becomes the current mode, even outside the valid set,
and system-prompt construction for such an unrecognized mode silently falls
back to the friend persona template. -/
theorem chat_mode_bypass (remote : Remote) (st : ConvState) (msg m now ts1 ts2 u : String)
    (hm : m ≠ "") :
    (chat remote st msg (some m) now ts1 ts2).2.mode = m ∧
    (m ∉ valid_modes →
      get_system_prompt m u now = friendPrompt u ++ "\n\nCurrent time: " ++ now) := by
  constructor
  · unfold chat add_to_history
    dsimp only
    rw [if_neg hm]
  · intro hv
    simp only [valid_modes, List.mem_cons, List.not_mem_nil, or_false, not_or] at hv
    obtain ⟨v1, v2, v3⟩ := hv
    unfold get_system_prompt
    rw [if_neg v1, if_neg v2, if_neg v3]

theorem chat_mode_bypass_witness :
    (chat c3Remote st8 "hello" (some "pirate") "t" "t1" "t2").2.mode = "pirate" ∧
    get_system_prompt "pirate" "User" "t" = friendPrompt "User" ++ "\n\nCurrent time: t" := by
  have h := chat_mode_bypass c3Remote st8 "hello" "pirate" "t" "t1" "t2" "User" (by decide)
  exact ⟨h.1, h.2 (by decide)⟩

end SpecterAgent
